import Mathlib

/-!
Shallow embedding of `src/clipdrop/static/js/clipboard.js` (browser-side UI
controller of the ClipDrop clipboard-sharing application).

Each DOM event handler of the source is modelled as a pure function from an
explicit environment (presence of the optional `window.showToast` and
`window.showConfirmModal` collaborators, the answer of the native
`confirm`/`prompt` dialogs, the values of the relevant `data-*` attributes,
and the outcome of the network call) to an effects trace recording the HTTP
requests issued, the toasts displayed, and the page reload scheduled.

JavaScript specifics mirrored explicitly:
* `getAttribute` returns `null` when the attribute is absent: attribute
  values are `Option String`, `none` standing for `null`.
* string truthiness: `""` and `null` are falsy, every other string truthy;
* `result.message || fallback` therefore yields `fallback` both when the
  `message` field is absent and when it is the empty string;
* `fetch`/`response.json()` either throws (network failure, modelled by
  `NetResult.fail`) or delivers a parsed body (`NetResult.ok`).
-/

namespace ClipDrop

/-- A parsed JSON response body as the handlers consume it: the `status`
string, an optional `message`, and the boolean fields `favorite` / `kept`
used by the toggle handlers (absent fields behave as `false`, matching
JavaScript truthiness of `undefined`). -/
structure ServerResponse where
  status : String
  message : Option String := none
  favorite : Bool := false
  kept : Bool := false
deriving DecidableEq, Repr

/-- Outcome of a network call: the promise chain throws, or a parsed body
is delivered. -/
inductive NetResult where
  | fail
  | ok (r : ServerResponse)
deriving DecidableEq, Repr

/-- Request body shapes used by the handlers. -/
inductive Body where
  | emptyObj
  | favoriteB (b : Bool)
  | keepB (b : Bool)
  | nameB (s : String)
  | formData
deriving DecidableEq, Repr

/-- An HTTP POST issued by a handler. -/
structure Request where
  url : String
  body : Body
deriving DecidableEq, Repr

/-- A toast notification: text and kind (`"success"` / `"error"`). -/
structure Toast where
  text : String
  kind : String
deriving DecidableEq, Repr

/-- The observable effects of one handler invocation: requests issued (in
order), toasts displayed, and the delay (ms) of a scheduled
`location.reload()`, if any. -/
structure Effects where
  requests : List Request
  toasts : List Toast
  reloadDelay : Option Nat
deriving DecidableEq, Repr

/-- The empty effects trace. -/
def noEffects : Effects := ⟨[], [], none⟩

/-- Ambient browser environment: which optional global collaborators exist
and how the blocking dialogs answer. -/
structure Env where
  hasToast : Bool
  hasModal : Bool
  modalConfirms : Bool
  nativeConfirm : Bool
deriving DecidableEq, Repr

/-- `if (window.showToast) window.showToast(text, kind)`. -/
def emitToast (env : Env) (text kind : String) : List Toast :=
  if env.hasToast then [⟨text, kind⟩] else []

/-- `result.message || fallback`: the `message` field when present and
non-empty (truthy), else the fallback. -/
def messageOr (r : ServerResponse) (fallback : String) : String :=
  match r.message with
  | some m => if m = "" then fallback else m
  | none => fallback

/-- JavaScript `String.prototype.trim`: strip whitespace from both ends
(modelled over the character list; `Char.isWhitespace` covers the ASCII
whitespace characters the repository's strings use). -/
def jsTrim (s : String) : String :=
  ⟨((s.data.dropWhile Char.isWhitespace).reverse.dropWhile
      Char.isWhitespace).reverse⟩

/-- JavaScript `String.prototype.length` (UTF-16 code units; identical to
the character count for the basic-plane strings handled here). -/
def jsLength (s : String) : Nat :=
  s.data.length

/-- JavaScript `str.substring(0, n)`. -/
def jsTake (s : String) (n : Nat) : String :=
  ⟨s.data.take n⟩

/-- Result of one `copyToClipboard` call: the returned boolean together
with how many temporary DOM nodes the call appended to and removed from
`document.body`. -/
structure CopyResult where
  ok : Bool
  appended : Nat
  removed : Nat
deriving DecidableEq, Repr

/-- `copyToClipboard(text)`: tries `navigator.clipboard.writeText`
(`primaryOk` says whether that await resolves); on throw, appends a
temporary textarea, runs `document.execCommand('copy')` (`execOk` says
whether that call throws), and removes the textarea on both the success
and the failure branch before returning. -/
def copyToClipboard (primaryOk execOk : Bool) : CopyResult :=
  if primaryOk then
    { ok := true, appended := 0, removed := 0 }
  else if execOk then
    { ok := true, appended := 1, removed := 1 }
  else
    { ok := false, appended := 1, removed := 1 }

/-- The text read from the create-entry form:
`textArea ? textArea.value.trim() : ''`. -/
def formText (textAreaValue : Option String) : String :=
  match textAreaValue with
  | some v => jsTrim v
  | none => ""

/-- Submit handler of the create-entry form (first module copy, lines
80-110): validates the trimmed `clipboard_data` text, then POSTs the form
to `/clipboard`; success toasts and schedules a reload after 1000 ms,
failure toasts `result.message || 'Failed to save'`, a thrown request
toasts the generic message. -/
def handleClipboardFormSubmit (env : Env) (textAreaValue : Option String)
    (net : NetResult) : Effects :=
  let text := formText textAreaValue
  if text = "" then
    { requests := [], toasts := emitToast env "Please enter some text" "error",
      reloadDelay := none }
  else
    match net with
    | .fail =>
      { requests := [⟨"/clipboard", .formData⟩],
        toasts := emitToast env "Failed to save" "error", reloadDelay := none }
    | .ok r =>
      if r.status = "success" then
        { requests := [⟨"/clipboard", .formData⟩],
          toasts := emitToast env "Saved to clipboard!" "success",
          reloadDelay := some 1000 }
      else
        { requests := [⟨"/clipboard", .formData⟩],
          toasts := emitToast env (messageOr r "Failed to save") "error",
          reloadDelay := none }

/-- Submit handler of the create-entry form (second module copy, lines
444-483): identical validation and request; the reload delay is 800 ms and
a submit-button loading state is toggled (not part of the trace). -/
def handleClipboardFormSubmitV2 (env : Env) (textAreaValue : Option String)
    (net : NetResult) : Effects :=
  let text := formText textAreaValue
  if text = "" then
    { requests := [], toasts := emitToast env "Please enter some text" "error",
      reloadDelay := none }
  else
    match net with
    | .fail =>
      { requests := [⟨"/clipboard", .formData⟩],
        toasts := emitToast env "Failed to save" "error", reloadDelay := none }
    | .ok r =>
      if r.status = "success" then
        { requests := [⟨"/clipboard", .formData⟩],
          toasts := emitToast env "Saved to clipboard!" "success",
          reloadDelay := some 800 }
      else
        { requests := [⟨"/clipboard", .formData⟩],
          toasts := emitToast env (messageOr r "Failed to save") "error",
          reloadDelay := none }

/-- `button.getAttribute('data-name') || 'this item'`: `null` and `""` are
falsy, any other string is kept. -/
def deleteNameOrDefault (dataName : Option String) : String :=
  match dataName with
  | none => "this item"
  | some s => if s = "" then "this item" else s

/-- `name.length > 30 ? name.substring(0, 30) + '...' : name`. -/
def truncateForDisplay (name : String) : String :=
  if jsLength name > 30 then jsTake name 30 ++ "..." else name

/-- The display name used in the delete confirmation messages. -/
def deleteDisplayName (dataName : Option String) : String :=
  truncateForDisplay (deleteNameOrDefault dataName)

/-- Message of the custom delete-confirmation modal. -/
def deleteConfirmMessageModal (dataName : Option String) : String :=
  "Are you sure you want to delete \"" ++ deleteDisplayName dataName ++
    "\"? This action cannot be undone."

/-- Message of the native `confirm` fallback for item deletion. -/
def deleteConfirmMessageNative (dataName : Option String) : String :=
  "Delete \"" ++ deleteDisplayName dataName ++ "\"?"

/-- Whether the confirmation step completes affirmatively: the custom
modal (when `window.showConfirmModal` exists) invokes `onConfirm`,
otherwise the native `confirm` returns true. -/
def confirmedAffirmatively (env : Env) : Bool :=
  if env.hasModal then env.modalConfirms else env.nativeConfirm

/-- The `doDelete` closure of `handleDeleteButtons`: POST
`/clipboard/{id}/delete` with `{}`; success toasts and schedules a reload
after 1000 ms, failure toasts `result.message || 'Failed to delete'`. -/
def doDeleteItem (env : Env) (itemId : String) (net : NetResult) : Effects :=
  let req : Request := ⟨"/clipboard/" ++ itemId ++ "/delete", .emptyObj⟩
  match net with
  | .fail =>
    { requests := [req], toasts := emitToast env "Failed to delete" "error",
      reloadDelay := none }
  | .ok r =>
    if r.status = "success" then
      { requests := [req], toasts := emitToast env "Deleted!" "success",
        reloadDelay := some 1000 }
    else
      { requests := [req],
        toasts := emitToast env (messageOr r "Failed to delete") "error",
        reloadDelay := none }

/-- Click handler of a `.clipboard-delete-btn`: `doDelete` runs only when
the custom modal confirms (if present) or the native `confirm` returns
true; otherwise nothing happens. -/
def handleDeleteButtonClick (env : Env) (itemId : String)
    (dataName : Option String) (net : NetResult) : Effects :=
  let _ := deleteDisplayName dataName
  if confirmedAffirmatively env then doDeleteItem env itemId net
  else noEffects

/-- `button.getAttribute('data-favorite') === 'true'` (strict equality,
`null` compares unequal). -/
def attrIsTrue (attr : Option String) : Bool :=
  match attr with
  | some s => s == "true"
  | none => false

/-- The desired favorite value sent by the toggle:
`const target = !current`. -/
def favoriteTarget (dataFavorite : Option String) : Bool :=
  !(attrIsTrue dataFavorite)

/-- Click handler of a `.favorite-toggle` button: POST
`/clipboard/{id}/favorite` with `{favorite: target}`; success toasts
`'Added to favorites'` / `'Removed from favorites'` depending on the
response's `favorite` field and schedules a reload after 500 ms, failure
toasts `result.message || 'Failed to update favorite'`. -/
def handleFavoriteToggleClick (env : Env) (itemId : String)
    (dataFavorite : Option String) (net : NetResult) : Effects :=
  let target := favoriteTarget dataFavorite
  let req : Request := ⟨"/clipboard/" ++ itemId ++ "/favorite", .favoriteB target⟩
  match net with
  | .fail =>
    { requests := [req],
      toasts := emitToast env "Failed to update favorite" "error",
      reloadDelay := none }
  | .ok r =>
    if r.status = "success" then
      { requests := [req],
        toasts := emitToast env
          (if r.favorite then "Added to favorites" else "Removed from favorites")
          "success",
        reloadDelay := some 500 }
    else
      { requests := [req],
        toasts := emitToast env (messageOr r "Failed to update favorite") "error",
        reloadDelay := none }

/-- Click handler of a `.folder-rename-btn` in the first module copy
(lines 276-302): `prompt('Rename folder', currentName)` returns `null`
(cancel, modelled `none`) or a string; the handler returns without a
request when `!newName || !newName.trim()`, otherwise POSTs the trimmed
name to `/clipboard/folders/{id}/rename` - the current name is never
compared against. -/
def handleFolderRenamePromptClick (env : Env) (folderId : String)
    (dataName : Option String) (promptResult : Option String)
    (net : NetResult) : Effects :=
  let _ := dataName.getD ""
  match promptResult with
  | none => noEffects
  | some newName =>
    if newName = "" then noEffects
    else if jsTrim newName = "" then noEffects
    else
      let req : Request :=
        ⟨"/clipboard/folders/" ++ folderId ++ "/rename", .nameB (jsTrim newName)⟩
      match net with
      | .fail =>
        { requests := [req],
          toasts := emitToast env "Failed to rename folder" "error",
          reloadDelay := none }
      | .ok r =>
        if r.status = "success" then
          { requests := [req], toasts := emitToast env "Folder renamed" "success",
            reloadDelay := some 500 }
        else
          { requests := [req],
            toasts := emitToast env (messageOr r "Failed to rename folder") "error",
            reloadDelay := none }

/-- The `saveRename` closure of the inline-edit rename variant (second
module copy, lines 688-715): `newName = input.value.trim()`; when
`!newName || newName === currentName` the edit is cancelled without a
request, otherwise `{name: newName}` is POSTed to the rename endpoint.
`currentName` is `button.getAttribute('data-name') || ''`. -/
def saveRename (env : Env) (folderId : String) (currentName : String)
    (inputValue : String) (net : NetResult) : Effects :=
  let newName := jsTrim inputValue
  if newName = "" then noEffects
  else if newName = currentName then noEffects
  else
    let req : Request :=
      ⟨"/clipboard/folders/" ++ folderId ++ "/rename", .nameB newName⟩
    match net with
    | .fail =>
      { requests := [req],
        toasts := emitToast env "Failed to rename folder" "error",
        reloadDelay := none }
    | .ok r =>
      if r.status = "success" then
        { requests := [req], toasts := emitToast env "Folder renamed" "success",
          reloadDelay := some 500 }
      else
        { requests := [req],
          toasts := emitToast env (messageOr r "Failed to rename folder") "error",
          reloadDelay := none }

/-- The `doDelete` closure of `handleFolderDelete`: POST
`/clipboard/folders/{id}/delete` with `{}`; success toasts and schedules a
reload after 500 ms, failure toasts the server message or a fallback. -/
def doDeleteFolder (env : Env) (folderId : String) (net : NetResult) : Effects :=
  let req : Request := ⟨"/clipboard/folders/" ++ folderId ++ "/delete", .emptyObj⟩
  match net with
  | .fail =>
    { requests := [req],
      toasts := emitToast env "Failed to delete folder" "error",
      reloadDelay := none }
  | .ok r =>
    if r.status = "success" then
      { requests := [req], toasts := emitToast env "Folder deleted" "success",
        reloadDelay := some 500 }
    else
      { requests := [req],
        toasts := emitToast env (messageOr r "Failed to delete folder") "error",
        reloadDelay := none }

/-- Click handler of a `.folder-delete-btn`: same confirmation gate as
the item delete (custom modal when present, native `confirm` otherwise). -/
def handleFolderDeleteClick (env : Env) (folderId : String)
    (net : NetResult) : Effects :=
  if confirmedAffirmatively env then doDeleteFolder env folderId net
  else noEffects

/-- Claim C1: `copyToClipboard` returns true exactly when the clipboard
write succeeded on the primary path or on the fallback path, and false
when both paths fail. -/
theorem copyToClipboard_ok_iff (primaryOk execOk : Bool) :
    (copyToClipboard primaryOk execOk).ok = (primaryOk || execOk) := by
  cases primaryOk <;> cases execOk <;> rfl

/-- Claim C9: the temporary textarea of the fallback path is removed
before `copyToClipboard` returns on both the success and the failure
branch, so the call appends exactly as many DOM nodes as it removes and
the node count is unchanged. -/
theorem copyToClipboard_dom_balanced (primaryOk execOk : Bool) :
    (copyToClipboard primaryOk execOk).appended =
      (copyToClipboard primaryOk execOk).removed := by
  cases primaryOk <;> cases execOk <;> rfl

/-- Claim C2, counterexample: in the prompt variant of folder rename, a
submitted name whose trimmed value equals the folder's original name
("Docs") still issues a POST to the rename endpoint, so the claim as
stated is false. -/
theorem folderRenamePrompt_unchanged_name_posts :
    jsTrim "Docs" = "Docs" ∧
    (handleFolderRenamePromptClick ⟨true, true, true, true⟩ "7" (some "Docs")
        (some "Docs") NetResult.fail).requests =
      [⟨"/clipboard/folders/7/rename", Body.nameB "Docs"⟩] := by
  exact ⟨rfl, rfl⟩

/-- Claim C2, amended: the inline-edit variant issues no rename request
when the trimmed name is empty or equals the original name; the prompt
variant issues no request when the prompt is cancelled or the trimmed
name is empty (an unchanged name is still submitted there). -/
theorem folderRename_skip_conditions (env : Env)
    (folderId currentName inputValue : String)
    (dataName promptResult : Option String) (net : NetResult)
    (hInline : jsTrim inputValue = "" ∨ jsTrim inputValue = currentName)
    (hPrompt : ∀ s, promptResult = some s → jsTrim s = "") :
    (saveRename env folderId currentName inputValue net).requests = [] ∧
    (handleFolderRenamePromptClick env folderId dataName promptResult
        net).requests = [] := by
  constructor
  · by_cases h0 : jsTrim inputValue = ""
    · simp [saveRename, h0, noEffects]
    · rcases hInline with h | h
      · exact absurd h h0
      · simp [saveRename, h0, h, noEffects]
  · cases promptResult with
    | none => rfl
    | some s =>
      have hs := hPrompt s rfl
      by_cases h0 : s = ""
      · simp [handleFolderRenamePromptClick, h0, noEffects]
      · simp [handleFolderRenamePromptClick, h0, hs, noEffects]

/-- Witness for the amended C2 theorem at concrete inputs: the inline
edit submitted as " Docs " over original "Docs", and a prompt answered
with whitespace only. -/
theorem folderRename_skip_conditions_witness :
    (saveRename ⟨true, true, true, true⟩ "3" "Docs" " Docs "
        NetResult.fail).requests = [] :=
  (folderRename_skip_conditions ⟨true, true, true, true⟩ "3" "Docs" " Docs "
    none (some "   ") NetResult.fail (Or.inr (by decide))
    (by intro s hs; cases hs; rfl)).1

/-- Claim C3, counterexample: with the optional toast collaborator
absent, a whitespace-only submission of the create-entry form issues no
request but also shows nothing, so "a validation error is shown" is
false as stated. -/
theorem clipboardForm_blank_silent_without_toast :
    (handleClipboardFormSubmit ⟨false, false, false, false⟩ (some "   ")
        NetResult.fail).requests = [] ∧
    (handleClipboardFormSubmit ⟨false, false, false, false⟩ (some "   ")
        NetResult.fail).toasts = [] := by
  exact ⟨rfl, rfl⟩

/-- Claim C3, amended: a submission whose `clipboard_data` text trims to
empty issues no network request and schedules no reload in both form
handler variants, and shows the validation-error toast exactly when the
toast collaborator is present. -/
theorem clipboardForm_blank_no_request (env : Env) (ta : Option String)
    (net : NetResult) (h : formText ta = "") :
    (handleClipboardFormSubmit env ta net).requests = [] ∧
    (handleClipboardFormSubmit env ta net).reloadDelay = none ∧
    (handleClipboardFormSubmit env ta net).toasts =
      (if env.hasToast then [⟨"Please enter some text", "error"⟩] else []) ∧
    (handleClipboardFormSubmitV2 env ta net).requests = [] ∧
    (handleClipboardFormSubmitV2 env ta net).reloadDelay = none ∧
    (handleClipboardFormSubmitV2 env ta net).toasts =
      (if env.hasToast then [⟨"Please enter some text", "error"⟩] else []) := by
  simp [handleClipboardFormSubmit, handleClipboardFormSubmitV2, h, emitToast]

/-- Witness for the amended C3 theorem: a whitespace-only submission with
the toast collaborator present. -/
theorem clipboardForm_blank_no_request_witness :
    (handleClipboardFormSubmit ⟨true, false, false, false⟩ (some "  ")
        NetResult.fail).requests = [] :=
  (clipboardForm_blank_no_request ⟨true, false, false, false⟩ (some "  ")
    NetResult.fail (by decide)).1

/-- Claim C4: for both the item-delete and the folder-delete handler, no
request reaches the delete endpoint unless the confirmation step
completes affirmatively (custom modal confirmed when present, otherwise
native `confirm` returning true); declining issues no request at all. -/
theorem delete_requires_affirmative_confirmation (env : Env)
    (itemId folderId : String) (dataName : Option String) (net : NetResult)
    (h : confirmedAffirmatively env = false) :
    (handleDeleteButtonClick env itemId dataName net).requests = [] ∧
    (handleFolderDeleteClick env folderId net).requests = [] := by
  simp [handleDeleteButtonClick, handleFolderDeleteClick, h, noEffects]

/-- Witness for C4: the custom modal is absent and the native `confirm`
is declined; neither delete request is issued. -/
theorem delete_requires_affirmative_confirmation_witness :
    (handleDeleteButtonClick ⟨true, false, true, false⟩ "42" (some "Notes")
        NetResult.fail).requests = [] :=
  (delete_requires_affirmative_confirmation ⟨true, false, true, false⟩ "42" "7"
    (some "Notes") NetResult.fail (by decide)).1

/-- Claim C5: every favorite-toggle click POSTs to the per-item favorite
endpoint a body whose `favorite` value is the logical negation of the
boolean recorded in `data-favorite`, i.e. true exactly when the attribute
is not the string "true". -/
theorem favoriteToggle_sends_negation (env : Env) (itemId : String)
    (dataFavorite : Option String) (net : NetResult) :
    (handleFavoriteToggleClick env itemId dataFavorite net).requests =
      [⟨"/clipboard/" ++ itemId ++ "/favorite",
        Body.favoriteB (favoriteTarget dataFavorite)⟩] ∧
    (favoriteTarget dataFavorite = true ↔ dataFavorite ≠ some "true") := by
  constructor
  · cases net with
    | fail => rfl
    | ok r =>
      simp only [handleFavoriteToggleClick]
      split <;> rfl
  · cases dataFavorite with
    | none => simp [favoriteTarget, attrIsTrue]
    | some s => simp [favoriteTarget, attrIsTrue]

/-- Claim C6: the display name in the delete confirmation is the
`data-name` value unchanged when its length is at most 30 and its first
30 characters followed by "..." otherwise; on the spec's example string
the result is a 30-character prefix followed by "...". -/
theorem deleteDisplayName_truncation (s : String) (h : s ≠ "") :
    deleteDisplayName (some s) =
      (if jsLength s ≤ 30 then s else jsTake s 30 ++ "...") ∧
    deleteDisplayName
        (some "A very very very long folder title exceeding thirty chars") =
      "A very very very long folder t..." ∧
    jsLength "A very very very long folder t" = 30 := by
  refine ⟨?_, by decide, by decide⟩
  simp only [deleteDisplayName, deleteNameOrDefault, if_neg h, truncateForDisplay]
  by_cases h30 : jsLength s ≤ 30
  · rw [if_neg (by omega), if_pos h30]
  · rw [if_pos (by omega), if_neg h30]

/-- Witness for C6 at the concrete name "Docs". -/
theorem deleteDisplayName_truncation_witness :
    deleteDisplayName (some "Docs") =
      (if jsLength "Docs" ≤ 30 then "Docs" else jsTake "Docs" 30 ++ "...") :=
  (deleteDisplayName_truncation "Docs" (by decide)).1

/-- Claim C7, counterexample: on a failure response the claim's "shows
the response's message field when it is present" is false as stated -
with the toast collaborator absent nothing is shown at all, and with it
present an empty-string `message` field (present but falsy) yields the
generic fallback instead of the message. -/
theorem failureResponse_toast_counterexample :
    (handleClipboardFormSubmit ⟨false, false, false, false⟩ (some "hello")
        (NetResult.ok ⟨"error", some "boom", false, false⟩)).toasts = [] ∧
    (handleClipboardFormSubmit ⟨true, false, false, false⟩ (some "hello")
        (NetResult.ok ⟨"error", some "", false, false⟩)).toasts =
      [⟨"Failed to save", "error"⟩] := by
  exact ⟨rfl, rfl⟩

/-- Claim C7, amended: on a parsed response whose status differs from
"success", each modelled request-issuing handler issues exactly the one
original request (no retry), schedules no reload, and - when the toast
collaborator is present - shows an error toast with the response's
`message` when present and non-empty, else a generic fallback. -/
theorem failureResponse_no_retry_no_reload (env : Env) (itemId : String)
    (dataFavorite ta : Option String) (r : ServerResponse)
    (hs : r.status ≠ "success") (ht : formText ta ≠ "") :
    (handleClipboardFormSubmit env ta (NetResult.ok r)).reloadDelay = none ∧
    (handleClipboardFormSubmit env ta (NetResult.ok r)).requests.length = 1 ∧
    (handleClipboardFormSubmit env ta (NetResult.ok r)).toasts =
      emitToast env (messageOr r "Failed to save") "error" ∧
    (doDeleteItem env itemId (NetResult.ok r)).reloadDelay = none ∧
    (doDeleteItem env itemId (NetResult.ok r)).requests.length = 1 ∧
    (doDeleteItem env itemId (NetResult.ok r)).toasts =
      emitToast env (messageOr r "Failed to delete") "error" ∧
    (handleFavoriteToggleClick env itemId dataFavorite
        (NetResult.ok r)).reloadDelay = none ∧
    (handleFavoriteToggleClick env itemId dataFavorite
        (NetResult.ok r)).requests.length = 1 ∧
    (handleFavoriteToggleClick env itemId dataFavorite
        (NetResult.ok r)).toasts =
      emitToast env (messageOr r "Failed to update favorite") "error" := by
  simp [handleClipboardFormSubmit, doDeleteItem, handleFavoriteToggleClick,
    hs, ht]

/-- Witness for the amended C7 theorem at a concrete failing response. -/
theorem failureResponse_no_retry_no_reload_witness :
    (handleClipboardFormSubmit ⟨true, false, false, false⟩ (some "hi")
        (NetResult.ok ⟨"error", some "nope", false, false⟩)).reloadDelay =
      none :=
  (failureResponse_no_retry_no_reload ⟨true, false, false, false⟩ "42"
    (some "true") (some "hi") ⟨"error", some "nope", false, false⟩
    (by decide) (by decide)).1

/-- Claim C8, counterexample: for the spec's example favorite response,
with the toast collaborator absent the reload is still scheduled but no
toast is shown, so "shows a success toast" is false as stated. -/
theorem favoriteSuccess_toast_counterexample :
    (handleFavoriteToggleClick ⟨false, false, false, false⟩ "123"
        (some "false")
        (NetResult.ok ⟨"success", none, true, false⟩)).toasts = [] ∧
    (handleFavoriteToggleClick ⟨false, false, false, false⟩ "123"
        (some "false")
        (NetResult.ok ⟨"success", none, true, false⟩)).reloadDelay =
      some 500 := by
  exact ⟨rfl, rfl⟩

/-- Claim C8, amended: on a success response the favorite-toggle handler
schedules a reload after 500 ms, and - when the toast collaborator is
present - shows a success toast whose text is "Added to favorites"
exactly when the response's `favorite` field is truthy and "Removed from
favorites" otherwise. -/
theorem favoriteSuccess_reload_and_toast (env : Env) (itemId : String)
    (dataFavorite : Option String) (r : ServerResponse)
    (hs : r.status = "success") :
    (handleFavoriteToggleClick env itemId dataFavorite
        (NetResult.ok r)).reloadDelay = some 500 ∧
    (handleFavoriteToggleClick env itemId dataFavorite
        (NetResult.ok r)).toasts =
      (if env.hasToast then
        [⟨if r.favorite then "Added to favorites" else "Removed from favorites",
          "success"⟩]
      else []) := by
  simp [handleFavoriteToggleClick, hs, emitToast]

/-- Witness for the amended C8 theorem on the spec's example response
`{status: "success", favorite: true}` with the toast collaborator
present. -/
theorem favoriteSuccess_reload_and_toast_witness :
    (handleFavoriteToggleClick ⟨true, false, false, false⟩ "123"
        (some "false")
        (NetResult.ok ⟨"success", none, true, false⟩)).reloadDelay =
      some 500 :=
  (favoriteSuccess_reload_and_toast ⟨true, false, false, false⟩ "123"
    (some "false") ⟨"success", none, true, false⟩ rfl).1

/-- Claim C10: a delete button whose `data-name` attribute is absent or
empty uses the default display name "this item" in both confirmation
messages. -/
theorem deleteDisplayName_default :
    deleteDisplayName none = "this item" ∧
    deleteDisplayName (some "") = "this item" ∧
    deleteConfirmMessageNative none = "Delete \"this item\"?" ∧
    deleteConfirmMessageModal (some "") =
      "Are you sure you want to delete \"this item\"? This action cannot be undone." := by
  exact ⟨rfl, rfl, rfl, rfl⟩

end ClipDrop
